/-
Verification of the core logic of `economy_app.py` (Global Economic Dashboard):
the country-list fetcher `get_country_list`, the indicator fetcher `fetch_data`,
and the rule-based text generator `generate_interpretation`.

Modelling conventions (shallow embedding):
- A dataframe row is a `Row`: a country, a numeric year, and a map from column
  name to an optional rational value (`none` models a null/NaN cell).
- Python floats are modelled as rationals; `f-string` numeric formatting is
  modelled by `fmt2` (two decimal places) and `formatUSD` (dollar sign, comma
  grouping, no decimals).  Rounding of exact ties differs from IEEE-754
  round-half-even formatting, which no statement here depends on.
- `pandas.sort_values` is modelled by `List.insertionSort` (a stable sort)
  with the corresponding key comparison.
- The World Bank client call `wb.download(...)` is modelled by its outcome: an
  `Except String (List RawRow)` input (`.error` = the client raised).  A raw
  row's year is `Option Int`: `some y` when `pd.to_numeric` would parse it,
  `none` when it would raise.
- `st.error` followed by `return pd.DataFrame()` is modelled by a
  `FetchResult` with `errorReported = true` and an empty table.
-/
import Mathlib

set_option maxHeartbeats 1000000
set_option linter.unusedVariables false

namespace EconomyApp

/-- Round a rational to the nearest integer (`⌊x + 1/2⌋`, computed on
numerator and denominator so that it evaluates by kernel reduction).  Exact
ties round up rather than to even, which no statement here depends on. -/
def roundQ (x : ℚ) : ℤ :=
  Int.fdiv (2 * x.num + (x.den : ℤ)) (2 * (x.den : ℤ))

/-- Model of Python `abs` on a float. -/
def pyAbs (x : ℚ) : ℚ := if x < 0 then -x else x

/-- Pad `n % 100` to two digits, as in the fractional part of `"%.2f"`. -/
def pad2 (k : Nat) : String :=
  if k < 10 then "0" ++ toString k else toString k

/-- Model of Python `f"{x:.2f}"`: fixed-point with two decimal places. -/
def fmt2 (x : ℚ) : String :=
  let n : ℤ := roundQ (x * 100)
  (if n < 0 then "-" else "")
    ++ toString (n.natAbs / 100) ++ "." ++ pad2 (n.natAbs % 100)

/-- Insert a comma after every third character (input is the reversed digit
string), as in Python `","` grouping. -/
def commaGroup : List Char → List Char
  | a :: b :: c :: d :: rest => a :: b :: c :: ',' :: commaGroup (d :: rest)
  | l => l

/-- Group a digit string with commas every three digits from the right. -/
def addCommas (s : String) : String :=
  String.mk (commaGroup s.toList.reverse).reverse

/-- Model of Python `f"${val:,.0f}"`: dollar sign, rounded to an integer,
comma-grouped thousands. -/
def formatUSD (x : ℚ) : String :=
  let n : ℤ := roundQ x
  "$" ++ (if n < 0 then "-" else "") ++ addCommas (toString n.natAbs)

/-- One row of the cleaned dataframe returned by `fetch_data`: the `country`
and `year` columns plus the remaining (numeric, nullable) columns accessed by
name; `cells m = none` models a null/NaN cell in column `m`. -/
structure Row where
  country : String
  year : Int
  cells : String → Option ℚ

/-- One row of the raw `wb.download` response after `reset_index`: `yearRaw`
is `some y` when the year value parses as numeric (`pd.to_numeric` succeeds),
`none` when it does not (`pd.to_numeric` raises); `gdp`/`infl` are the two
indicator columns (renamed to their display labels downstream). -/
structure RawRow where
  country : String
  yearRaw : Option Int
  gdp : Option ℚ
  infl : Option ℚ

/-- One entry of the raw `wb.get_countries()` response. -/
structure CountryRef where
  name : String
  iso2c : String
  region : String

/-- Comparison used by `sort_values('year')`. -/
def yearLe (a b : Row) : Prop := a.year ≤ b.year

instance : DecidableRel yearLe := fun a b =>
  inferInstanceAs (Decidable (a.year ≤ b.year))

/-- Comparison used by `sort_values(['country', 'year'])`: lexicographic on
(country, year). -/
def rowLe (a b : Row) : Prop :=
  a.country < b.country ∨ (a.country = b.country ∧ a.year ≤ b.year)

instance : DecidableRel rowLe := fun a b =>
  have : Decidable (a.country < b.country) :=
    decidable_of_iff (a.country.toList < b.country.toList)
      String.lt_iff_toList_lt.symm
  inferInstanceAs (Decidable (_ ∨ _))

/-- Comparison used by `sort_values('name')` on (name, iso2c) pairs. -/
def nameLe (p q : String × String) : Prop := p.1 ≤ q.1

instance : DecidableRel nameLe := fun p q =>
  decidable_of_iff (p.1.toList ≤ q.1.toList) String.le_iff_toList_le.symm

/-- `df[df['country'] == country_name].sort_values('year')`: the rows of the
given country, sorted by year ascending. -/
def countryData (df : List Row) (country_name : String) : List Row :=
  List.insertionSort yearLe (df.filter fun r => r.country == country_name)

/-- Column label of the GDP indicator after renaming. -/
def gdpLabel : String := "GDP (Current US$)"

/-- Column label of the inflation indicator after renaming. -/
def inflLabel : String := "Inflation (Annual %)"

/-- Embedding of `generate_interpretation(df, country_name, metric_col)`. -/
def generate_interpretation (df : List Row) (country_name metric_col : String) :
    String :=
  let cd := countryData df country_name
  match cd.getLast? with
  | none => "No data available for interpretation."
  | some latest =>
    let summary := "**" ++ country_name ++ " Analysis:** "
    match latest.cells metric_col with
    | none =>
        "No recent data available for " ++ metric_col ++ " in "
          ++ country_name ++ "."
    | some val =>
      if metric_col == gdpLabel then
        let summary := summary ++ "In " ++ toString latest.year
          ++ ", the GDP was " ++ formatUSD val ++ ". "
        -- `if len(country_data) > 1: prev = country_data.iloc[-2]`
        match cd.dropLast.getLast? with
        | none => summary
        | some prev =>
          match prev.cells metric_col with
          | none => summary
          | some prev_val =>
            if prev_val ≠ 0 then
              let growth := (val - prev_val) / prev_val * 100
              let trend := if growth > 0 then "grew" else "contracted"
              summary ++ "The economy " ++ trend ++ " by " ++ fmt2 (pyAbs growth)
                ++ "% compared to " ++ toString prev.year ++ "."
            else summary
      else if metric_col == inflLabel then
        let summary := summary ++ "In " ++ toString latest.year
          ++ ", inflation was recorded at " ++ fmt2 val ++ "%. "
        if val > 10 then
          summary ++ "This indicates very high inflationary pressure, significantly reducing purchasing power."
        else if val > 5 then
          summary ++ "This is considered high inflation."
        else if 1 ≤ val ∧ val ≤ 3 then
          summary ++ "This is generally considered a healthy or stable inflation rate."
        else if val < 0 then
          summary ++ "The economy experienced deflation (falling prices)."
        else
          summary ++ "Inflation is relatively low."
      else summary

/-- `df.rename(columns=INDICATORS)` + `pd.to_numeric(df['year'])` on one raw
row: fails (`none`) exactly when the year does not parse. -/
def parseRawRow (r : RawRow) : Option Row :=
  match r.yearRaw with
  | none => none
  | some y =>
      some { country := r.country, year := y,
             cells := fun m =>
               if m == gdpLabel then r.gdp
               else if m == inflLabel then r.infl
               else none }

/-- `pd.to_numeric` over the whole year column: fails if any row fails. -/
def parseRows : List RawRow → Option (List Row)
  | [] => some []
  | r :: rs =>
    match parseRawRow r, parseRows rs with
    | some row, some rows => some (row :: rows)
    | _, _ => none

/-- The body of the `try:` block of `fetch_data`: `.error` models an exception
raised inside the block (by `wb.download` or by `pd.to_numeric`). -/
def fetch_data_body (resp : Except String (List RawRow)) :
    Except String (List Row) :=
  match resp with
  | .error e => .error e
  | .ok raws =>
    match parseRows raws with
    | none => .error "Unable to parse string"
    | some rows => .ok (List.insertionSort rowLe rows)

/-- Outcome of `fetch_data`: the returned dataframe, and whether `st.error`
was called (the `except` path, which returns an empty dataframe). -/
structure FetchResult where
  table : List Row
  errorReported : Bool

/-- Embedding of `fetch_data(country_codes, start_year, end_year)`.  The first
three arguments only feed `wb.download`, whose outcome is `resp`. -/
def fetch_data (country_codes : List String) (start_year end_year : Int)
    (resp : Except String (List RawRow)) : FetchResult :=
  match fetch_data_body resp with
  | .ok table => { table := table, errorReported := false }
  | .error _ => { table := [], errorReported := true }

/-- Embedding of `get_country_list()`; `countries` is the `wb.get_countries()`
response. -/
def get_country_list (countries : List CountryRef) : List (String × String) :=
  List.insertionSort nameLe
    ((countries.filter fun c => c.region != "Aggregates").map
      fun c => (c.name, c.iso2c))

/-- Convenience constructor for a concrete dataframe row whose cell layout is
the one produced by `parseRawRow` (a GDP column and an inflation column). -/
def mkRow (c : String) (y : Int) (g i : Option ℚ) : Row :=
  { country := c, year := y,
    cells := fun m => if m == gdpLabel then g else if m == inflLabel then i else none }

/-! ### Helper lemmas -/

theorem parseRawRow_country_year {a : RawRow} {r : Row}
    (h : parseRawRow a = some r) :
    a.country = r.country ∧ a.yearRaw = some r.year := by
  cases hy : a.yearRaw with
  | none => simp [parseRawRow, hy] at h
  | some y =>
    simp only [parseRawRow, hy] at h
    cases h
    exact ⟨rfl, rfl⟩

theorem parseRows_mem {raws : List RawRow} {rows : List Row}
    (h : parseRows raws = some rows) :
    ∀ r ∈ rows, ∃ a ∈ raws, parseRawRow a = some r := by
  induction raws generalizing rows with
  | nil =>
    simp only [parseRows, Option.some.injEq] at h
    subst h; simp
  | cons a as ih =>
    simp only [parseRows] at h
    cases hp : parseRawRow a with
    | none => rw [hp] at h; simp at h
    | some row =>
      cases hps : parseRows as with
      | none => rw [hp, hps] at h; simp at h
      | some rs =>
        rw [hp, hps] at h
        simp only [Option.some.injEq] at h
        subst h
        intro r hr
        rcases List.mem_cons.mp hr with rfl | hr2
        · exact ⟨a, List.mem_cons_self a as, hp⟩
        · obtain ⟨b, hb, hpb⟩ := ih hps r hr2
          exact ⟨b, List.mem_cons_of_mem _ hb, hpb⟩

theorem parseRows_pairwise_key {raws : List RawRow} {rows : List Row}
    (h : parseRows raws = some rows)
    (hp : raws.Pairwise fun a b => a.country ≠ b.country ∨ a.yearRaw ≠ b.yearRaw) :
    rows.Pairwise fun x y => x.country ≠ y.country ∨ x.year ≠ y.year := by
  induction raws generalizing rows with
  | nil =>
    simp only [parseRows, Option.some.injEq] at h
    subst h; exact List.Pairwise.nil
  | cons a as ih =>
    simp only [parseRows] at h
    cases hpa : parseRawRow a with
    | none => rw [hpa] at h; simp at h
    | some row =>
      cases hps : parseRows as with
      | none => rw [hpa, hps] at h; simp at h
      | some rs =>
        rw [hpa, hps] at h
        simp only [Option.some.injEq] at h
        subst h
        rcases List.pairwise_cons.mp hp with ⟨hhead, htail⟩
        refine List.Pairwise.cons ?_ (ih hps htail)
        intro y hy
        obtain ⟨b, hb, hpb⟩ := parseRows_mem hps y hy
        obtain ⟨hc1, hy1⟩ := parseRawRow_country_year hpa
        obtain ⟨hc2, hy2⟩ := parseRawRow_country_year hpb
        rcases hhead b hb with hne | hne
        · left; rw [← hc1, ← hc2]; exact hne
        · right
          intro he
          exact hne (by rw [hy1, hy2, he])

theorem parseRows_eq_none {raws : List RawRow}
    (h : ∃ r ∈ raws, r.yearRaw = none) : parseRows raws = none := by
  induction raws with
  | nil => simp at h
  | cons a as ih =>
    obtain ⟨r, hr, hnone⟩ := h
    rcases List.mem_cons.mp hr with rfl | hr2
    · simp only [parseRows, parseRawRow, hnone]
    · have hrec := ih ⟨r, hr2, hnone⟩
      simp only [parseRows, hrec]
      cases parseRawRow a <;> rfl

instance : IsTotal Row rowLe :=
  ⟨fun a b => by
    unfold rowLe
    rcases lt_trichotomy a.country b.country with h | h | h
    · exact .inl (.inl h)
    · rcases le_total a.year b.year with hy | hy
      · exact .inl (.inr ⟨h, hy⟩)
      · exact .inr (.inr ⟨h.symm, hy⟩)
    · exact .inr (.inl h)⟩

instance : IsTrans Row rowLe :=
  ⟨fun a b c hab hbc => by
    unfold rowLe at *
    rcases hab with h1 | ⟨e1, y1⟩
    · rcases hbc with h2 | ⟨e2, y2⟩
      · exact .inl (h1.trans h2)
      · exact .inl (by rw [← e2]; exact h1)
    · rcases hbc with h2 | ⟨e2, y2⟩
      · exact .inl (by rw [e1]; exact h2)
      · exact .inr ⟨e1.trans e2, y1.trans y2⟩⟩

instance : IsTotal (String × String) nameLe := ⟨fun p q => le_total p.1 q.1⟩

instance : IsTrans (String × String) nameLe := ⟨fun p q r h1 h2 => le_trans h1 h2⟩

/-! ### Claim theorems -/

/-- C3: whenever the body of the `try:` block of `fetch_data` raises (the API
call or any subsequent processing step errors), `fetch_data` does not
propagate the exception: it reports a user-facing error and returns an empty
table. -/
theorem fetch_data_catches_errors (country_codes : List String)
    (start_year end_year : Int) (resp : Except String (List RawRow))
    (msg : String) (h : fetch_data_body resp = .error msg) :
    fetch_data country_codes start_year end_year resp
      = { table := [], errorReported := true } := by
  unfold fetch_data
  rw [h]

/-- Witness for C3: a failing API call is caught and yields the empty table
plus a reported error. -/
theorem fetch_data_catches_errors_witness :
    fetch_data_body (Except.error "network down" : Except String (List RawRow))
        = .error "network down"
      ∧ fetch_data [] 2000 2001 (Except.error "network down")
        = { table := [], errorReported := true } :=
  ⟨rfl, fetch_data_catches_errors [] 2000 2001 _ "network down" rfl⟩

/-- C4 counterexample: on a response whose year does not parse as numeric,
the numeric coercion raises inside the `try:` block, yet `fetch_data`
returns normally with an empty table and a reported error — the exception
does not propagate to the caller, contrary to the claim. -/
theorem fetch_data_bad_year_absorbed :
    fetch_data_body
        (.ok [{ country := "US", yearRaw := none, gdp := some 1, infl := some 2 }])
        = .error "Unable to parse string"
      ∧ fetch_data ["US"] 2019 2020
        (.ok [{ country := "US", yearRaw := none, gdp := some 1, infl := some 2 }])
        = { table := [], errorReported := true } :=
  ⟨rfl, rfl⟩

/-- C4 (amended): if any year value in the API response does not parse as
numeric, the coercion error is caught by the blanket handler of
`fetch_data`, which reports a user-facing error and returns an empty table;
the value is not silently coerced to null, but the failure is absorbed
rather than propagated. -/
theorem fetch_data_bad_year_reported_empty (country_codes : List String)
    (start_year end_year : Int) (raws : List RawRow)
    (h : ∃ r ∈ raws, r.yearRaw = none) :
    fetch_data country_codes start_year end_year (.ok raws)
      = { table := [], errorReported := true } := by
  unfold fetch_data
  simp only [fetch_data_body]
  rw [parseRows_eq_none h]

/-- Witness for the amended C4: a concrete response with a non-numeric year
produces the empty table plus a reported error. -/
theorem fetch_data_bad_year_reported_empty_witness :
    (∃ r ∈ [({ country := "FR", yearRaw := none, gdp := none, infl := none } : RawRow)],
        r.yearRaw = none)
      ∧ fetch_data [] 1960 1961
          (.ok [{ country := "FR", yearRaw := none, gdp := none, infl := none }])
        = { table := [], errorReported := true } :=
  ⟨⟨_, List.mem_singleton.mpr rfl, rfl⟩,
    fetch_data_bad_year_reported_empty [] 1960 1961 _
      ⟨_, List.mem_singleton.mpr rfl, rfl⟩⟩

/-- C6: if the table has no row for the requested country,
`generate_interpretation` returns exactly the literal fallback string. -/
theorem interpretation_no_rows_fallback (df : List Row)
    (country_name metric_col : String)
    (h : ∀ r ∈ df, r.country ≠ country_name) :
    generate_interpretation df country_name metric_col
      = "No data available for interpretation." := by
  have hf : (df.filter fun r => r.country == country_name) = [] :=
    List.filter_eq_nil_iff.mpr (by intro a ha; simpa using h a ha)
  unfold generate_interpretation countryData
  rw [hf]
  rfl

/-- Witness for C6: a table whose single row belongs to another country. -/
theorem interpretation_no_rows_fallback_witness :
    (∀ r ∈ [mkRow "Y" 2000 none none], r.country ≠ "X")
      ∧ generate_interpretation [mkRow "Y" 2000 none none] "X" gdpLabel
        = "No data available for interpretation." :=
  ⟨by decide, interpretation_no_rows_fallback _ "X" gdpLabel (by decide)⟩

/-- C7: if the latest row for the country has a null value in the requested
metric column, `generate_interpretation` returns the informational
no-recent-data message naming the metric and the country. -/
theorem interpretation_no_recent_data (df : List Row)
    (country_name metric_col : String) (latest : Row)
    (h1 : (countryData df country_name).getLast? = some latest)
    (h2 : latest.cells metric_col = none) :
    generate_interpretation df country_name metric_col
      = "No recent data available for " ++ metric_col ++ " in "
          ++ country_name ++ "." := by
  simp only [generate_interpretation, h1, h2]

/-- Witness for C7: a single row whose inflation cell is null. -/
theorem interpretation_no_recent_data_witness :
    (countryData [mkRow "X" 2020 none none] "X").getLast?
        = some (mkRow "X" 2020 none none)
      ∧ generate_interpretation [mkRow "X" 2020 none none] "X" inflLabel
        = "No recent data available for " ++ inflLabel ++ " in " ++ "X" ++ "." :=
  ⟨rfl, interpretation_no_recent_data _ "X" inflLabel _ rfl rfl⟩

/-- C9: for a metric column that is neither the GDP label nor the inflation
label, when the latest value is non-null, `generate_interpretation` returns
the bare analysis header with nothing appended. -/
theorem interpretation_unknown_metric_bare_header (df : List Row)
    (country_name metric_col : String) (latest : Row) (v : ℚ)
    (h1 : (countryData df country_name).getLast? = some latest)
    (h2 : latest.cells metric_col = some v)
    (hm1 : metric_col ≠ gdpLabel) (hm2 : metric_col ≠ inflLabel) :
    generate_interpretation df country_name metric_col
      = "**" ++ country_name ++ " Analysis:** " := by
  simp only [generate_interpretation, h1, h2, beq_iff_eq, hm1, hm2, if_false]

/-- Witness for C9: a row whose cells are populated in every column, queried
with an unknown metric label. -/
theorem interpretation_unknown_metric_bare_header_witness :
    (({ country := "X", year := 2020, cells := fun _ => some 1 } : Row).cells
        "Other" = some 1)
      ∧ generate_interpretation
          [{ country := "X", year := 2020, cells := fun _ => some 1 }] "X" "Other"
        = "**" ++ "X" ++ " Analysis:** " :=
  ⟨rfl,
    interpretation_unknown_metric_bare_header _ "X" "Other" _ 1 rfl rfl
      (by decide) (by decide)⟩

/-- C10: `generate_interpretation` depends only on the rows of the requested
country — two tables that agree on the subsequence of rows of that country
produce identical output, whatever the other rows are. -/
theorem interpretation_depends_only_on_country_rows (df₁ df₂ : List Row)
    (country_name metric_col : String)
    (h : df₁.filter (fun r => r.country == country_name)
        = df₂.filter (fun r => r.country == country_name)) :
    generate_interpretation df₁ country_name metric_col
      = generate_interpretation df₂ country_name metric_col := by
  unfold generate_interpretation countryData
  rw [h]

/-- Witness for C10: adding a row of another country does not change the
output. -/
theorem interpretation_depends_only_on_country_rows_witness :
    ([mkRow "X" 2020 none (some 2), mkRow "Y" 1999 none none].filter
        (fun r => r.country == "X")
      = [mkRow "X" 2020 none (some 2)].filter (fun r => r.country == "X"))
      ∧ generate_interpretation
          [mkRow "X" 2020 none (some 2), mkRow "Y" 1999 none none] "X" inflLabel
        = generate_interpretation [mkRow "X" 2020 none (some 2)] "X" inflLabel :=
  ⟨rfl, interpretation_depends_only_on_country_rows _ _ "X" inflLabel rfl⟩

/-- C1: for the inflation metric, when the latest value `v` is non-null, the
output is the header and the recorded-value sentence followed by exactly one
band message, the bands being disjoint as in the spec: `v > 10` very high;
`5 < v ≤ 10` high; `1 ≤ v ≤ 3` healthy/stable; `v < 0` deflation; otherwise
(`0 ≤ v < 1` or `3 < v ≤ 5`) the generic relatively-low message. -/
theorem inflation_banding (df : List Row) (country_name : String)
    (latest : Row) (v : ℚ)
    (h1 : (countryData df country_name).getLast? = some latest)
    (h2 : latest.cells inflLabel = some v) :
    generate_interpretation df country_name inflLabel
      = "**" ++ country_name ++ " Analysis:** " ++ "In "
          ++ toString latest.year ++ ", inflation was recorded at "
          ++ fmt2 v ++ "%. "
          ++ (if 10 < v then
                "This indicates very high inflationary pressure, significantly reducing purchasing power."
              else if 5 < v ∧ v ≤ 10 then
                "This is considered high inflation."
              else if 1 ≤ v ∧ v ≤ 3 then
                "This is generally considered a healthy or stable inflation rate."
              else if v < 0 then
                "The economy experienced deflation (falling prices)."
              else
                "Inflation is relatively low.") := by
  have hg : (inflLabel == gdpLabel) = false := rfl
  have hi : (inflLabel == inflLabel) = true := rfl
  simp only [generate_interpretation, h1, h2, hg, hi, Bool.false_eq_true,
    if_false, if_true, gt_iff_lt]
  by_cases h10 : (10 : ℚ) < v
  · simp [h10]
  · by_cases h5 : (5 : ℚ) < v
    · simp [h10, h5, le_of_not_lt h10]
    · by_cases h13 : 1 ≤ v ∧ v ≤ 3
      · simp [h10, h5, h13]
      · by_cases h0 : v < 0
        · simp [h10, h5, h13, h0]
        · simp [h10, h5, h13, h0]

/-- Witness for C1: the five concrete band values 12.5, 7, 2, -1 and 4. -/
theorem inflation_banding_witness :
    generate_interpretation [mkRow "X" 2020 none (some (25 / 2))] "X" inflLabel
        = "**X Analysis:** In 2020, inflation was recorded at 12.50%. This indicates very high inflationary pressure, significantly reducing purchasing power."
      ∧ generate_interpretation [mkRow "X" 2020 none (some 7)] "X" inflLabel
        = "**X Analysis:** In 2020, inflation was recorded at 7.00%. This is considered high inflation."
      ∧ generate_interpretation [mkRow "X" 2020 none (some 2)] "X" inflLabel
        = "**X Analysis:** In 2020, inflation was recorded at 2.00%. This is generally considered a healthy or stable inflation rate."
      ∧ generate_interpretation [mkRow "X" 2020 none (some (-1))] "X" inflLabel
        = "**X Analysis:** In 2020, inflation was recorded at -1.00%. The economy experienced deflation (falling prices)."
      ∧ generate_interpretation [mkRow "X" 2020 none (some 4)] "X" inflLabel
        = "**X Analysis:** In 2020, inflation was recorded at 4.00%. Inflation is relatively low." :=
  ⟨(inflation_banding [mkRow "X" 2020 none (some (25 / 2))] "X"
        (mkRow "X" 2020 none (some (25 / 2))) (25 / 2) rfl rfl).trans
      (by with_unfolding_all decide),
    (inflation_banding [mkRow "X" 2020 none (some 7)] "X"
        (mkRow "X" 2020 none (some 7)) 7 rfl rfl).trans
      (by with_unfolding_all decide),
    (inflation_banding [mkRow "X" 2020 none (some 2)] "X"
        (mkRow "X" 2020 none (some 2)) 2 rfl rfl).trans
      (by with_unfolding_all decide),
    (inflation_banding [mkRow "X" 2020 none (some (-1))] "X"
        (mkRow "X" 2020 none (some (-1))) (-1) rfl rfl).trans
      (by with_unfolding_all decide),
    (inflation_banding [mkRow "X" 2020 none (some 4)] "X"
        (mkRow "X" 2020 none (some 4)) 4 rfl rfl).trans
      (by with_unfolding_all decide)⟩

/-- C2: for the GDP metric, when the latest value `v` is non-null, the trend
sentence is appended exactly when a second-latest row exists (at least two
rows) with a non-null, non-zero GDP value `pv`; it then reports the percent
change `(v - pv) / pv * 100`, classified as grew when strictly positive and
contracted otherwise, with the absolute percentage in two decimal places and
the comparison year; in every other case the output stops after the formatted
latest value.  The last conjunct identifies the absent second-latest row with
the table having fewer than two rows for the country. -/
theorem gdp_trend (df : List Row) (country_name : String) (latest : Row)
    (v : ℚ) (h1 : (countryData df country_name).getLast? = some latest)
    (h2 : latest.cells gdpLabel = some v) :
    (∀ prev pv, (countryData df country_name).dropLast.getLast? = some prev →
        prev.cells gdpLabel = some pv → pv ≠ 0 →
        generate_interpretation df country_name gdpLabel
          = "**" ++ country_name ++ " Analysis:** " ++ "In "
              ++ toString latest.year ++ ", the GDP was " ++ formatUSD v ++ ". "
              ++ "The economy "
              ++ (if 0 < (v - pv) / pv * 100 then "grew" else "contracted")
              ++ " by " ++ fmt2 (pyAbs ((v - pv) / pv * 100))
              ++ "% compared to " ++ toString prev.year ++ ".")
      ∧ ((countryData df country_name).dropLast.getLast? = none →
        generate_interpretation df country_name gdpLabel
          = "**" ++ country_name ++ " Analysis:** " ++ "In "
              ++ toString latest.year ++ ", the GDP was " ++ formatUSD v ++ ". ")
      ∧ (∀ prev, (countryData df country_name).dropLast.getLast? = some prev →
        prev.cells gdpLabel = none →
        generate_interpretation df country_name gdpLabel
          = "**" ++ country_name ++ " Analysis:** " ++ "In "
              ++ toString latest.year ++ ", the GDP was " ++ formatUSD v ++ ". ")
      ∧ (∀ prev, (countryData df country_name).dropLast.getLast? = some prev →
        prev.cells gdpLabel = some 0 →
        generate_interpretation df country_name gdpLabel
          = "**" ++ country_name ++ " Analysis:** " ++ "In "
              ++ toString latest.year ++ ", the GDP was " ++ formatUSD v ++ ". ")
      ∧ ((countryData df country_name).dropLast.getLast? = none
          ↔ (countryData df country_name).length < 2) := by
  have hgg : (gdpLabel == gdpLabel) = true := rfl
  refine ⟨?_, ?_, ?_, ?_, ?_⟩
  · intro prev pv hprev hpv hpv0
    simp only [generate_interpretation, h1, h2, hgg, if_true, hprev, hpv,
      gt_iff_lt]
    rw [if_pos hpv0]
  · intro hnone
    simp only [generate_interpretation, h1, h2, hgg, if_true, hnone]
  · intro prev hprev hpnone
    simp only [generate_interpretation, h1, h2, hgg, if_true, hprev, hpnone]
  · intro prev hprev hp0
    simp only [generate_interpretation, h1, h2, hgg, if_true, hprev, hp0,
      ne_eq, not_true_eq_false]
    rw [if_neg (by simp)]
  · rcases hl : countryData df country_name with - | ⟨a, t⟩
    · simp
    · rcases t with - | ⟨b, t2⟩
      · simp
      · simp only [List.dropLast, List.length_cons]
        constructor
        · intro hnone
          exact absurd hnone (by simp)
        · intro hlen
          omega

/-- Witness for C2: previous 100 and latest 110 grows by 10.00 percent,
previous 100 and latest 90 contracts by 10.00 percent, and previous 0 omits
the trend sentence. -/
theorem gdp_trend_witness :
    generate_interpretation
        [mkRow "X" 2019 (some 100) none, mkRow "X" 2020 (some 110) none] "X"
        gdpLabel
      = "**X Analysis:** In 2020, the GDP was $110. The economy grew by 10.00% compared to 2019."
      ∧ generate_interpretation
        [mkRow "X" 2019 (some 100) none, mkRow "X" 2020 (some 90) none] "X"
        gdpLabel
      = "**X Analysis:** In 2020, the GDP was $90. The economy contracted by 10.00% compared to 2019."
      ∧ generate_interpretation
        [mkRow "X" 2019 (some 0) none, mkRow "X" 2020 (some 110) none] "X"
        gdpLabel
      = "**X Analysis:** In 2020, the GDP was $110. " :=
  ⟨((gdp_trend [mkRow "X" 2019 (some 100) none, mkRow "X" 2020 (some 110) none]
        "X" (mkRow "X" 2020 (some 110) none) 110 rfl rfl).1
      (mkRow "X" 2019 (some 100) none) 100 rfl rfl (by decide)).trans
      (by with_unfolding_all decide),
    ((gdp_trend [mkRow "X" 2019 (some 100) none, mkRow "X" 2020 (some 90) none]
        "X" (mkRow "X" 2020 (some 90) none) 90 rfl rfl).1
      (mkRow "X" 2019 (some 100) none) 100 rfl rfl (by decide)).trans
      (by with_unfolding_all decide),
    ((gdp_trend [mkRow "X" 2019 (some 0) none, mkRow "X" 2020 (some 110) none]
        "X" (mkRow "X" 2020 (some 110) none) 110 rfl rfl).2.2.2.1
      (mkRow "X" 2019 (some 0) none) rfl rfl).trans
      (by with_unfolding_all decide)⟩

/-- C5: on a successful fetch (no error reported), if the response rows have
years inside the requested range and pairwise-distinct (country, year) keys,
then the returned table is sorted strictly by (country, year) ascending and
every year lies within the range. -/
theorem fetch_data_sorted_and_in_range (country_codes : List String)
    (start_year end_year : Int) (raws : List RawRow) (tbl : List Row)
    (hse : start_year ≤ end_year)
    (hrange : ∀ r ∈ raws, ∀ y, r.yearRaw = some y →
        start_year ≤ y ∧ y ≤ end_year)
    (hkey : raws.Pairwise fun a b =>
        a.country ≠ b.country ∨ a.yearRaw ≠ b.yearRaw)
    (hok : fetch_data country_codes start_year end_year (.ok raws)
        = { table := tbl, errorReported := false }) :
    tbl.Pairwise (fun a b =>
        a.country < b.country ∨ (a.country = b.country ∧ a.year < b.year))
      ∧ ∀ r ∈ tbl, start_year ≤ r.year ∧ r.year ≤ end_year := by
  cases hps : parseRows raws with
  | none =>
    have hfd : fetch_data country_codes start_year end_year (.ok raws)
        = { table := [], errorReported := true } := by
      unfold fetch_data
      simp only [fetch_data_body, hps]
    rw [hfd] at hok
    exact absurd (congrArg FetchResult.errorReported hok) (by simp)
  | some rows =>
    have hfd : fetch_data country_codes start_year end_year (.ok raws)
        = { table := List.insertionSort rowLe rows, errorReported := false } := by
      unfold fetch_data
      simp only [fetch_data_body, hps]
    have htbl : List.insertionSort rowLe rows = tbl :=
      congrArg FetchResult.table (hfd.symm.trans hok)
    subst htbl
    have hperm : List.Perm (List.insertionSort rowLe rows) rows :=
      List.perm_insertionSort rowLe rows
    constructor
    · have hsorted : (List.insertionSort rowLe rows).Pairwise rowLe :=
        List.sorted_insertionSort rowLe rows
    -- transfer the distinct-key property across the sorting permutation
      have hkeys2 : (List.insertionSort rowLe rows).Pairwise
          (fun x y => x.country ≠ y.country ∨ x.year ≠ y.year) :=
        (hperm.pairwise_iff (fun h => h.imp Ne.symm Ne.symm)).mpr
          (parseRows_pairwise_key hps hkey)
      refine (hsorted.and hkeys2).imp ?_
      intro a b hab
      obtain ⟨hle, hne⟩ := hab
      rcases hle with h | ⟨hc, hy⟩
      · exact .inl h
      · rcases hne with hnc | hny
        · exact absurd hc hnc
        · exact .inr ⟨hc, lt_of_le_of_ne hy hny⟩
    · intro r hr
      obtain ⟨a, ha, hpa⟩ := parseRows_mem hps r (hperm.mem_iff.mp hr)
      obtain ⟨-, hy⟩ := parseRawRow_country_year hpa
      exact hrange a ha r.year hy

/-- Concrete raw response rows used by the fetch witnesses. -/
def rawUS : RawRow :=
  { country := "US", yearRaw := some 2020, gdp := some 1, infl := some 2 }

/-- Second concrete raw response row used by the fetch witnesses. -/
def rawAU : RawRow :=
  { country := "AU", yearRaw := some 2019, gdp := none, infl := none }

/-- Witness for C5: a concrete two-country response is returned sorted and
within range. -/
theorem fetch_data_sorted_and_in_range_witness :
    (∀ r ∈ [rawUS, rawAU], ∀ y, r.yearRaw = some y →
        (2019 : ℤ) ≤ y ∧ y ≤ 2020)
      ∧ ([rawUS, rawAU].Pairwise fun a b =>
            a.country ≠ b.country ∨ a.yearRaw ≠ b.yearRaw)
      ∧ ([mkRow "AU" 2019 none none,
          mkRow "US" 2020 (some 1) (some 2)].Pairwise (fun a b =>
            a.country < b.country ∨ (a.country = b.country ∧ a.year < b.year))
          ∧ ∀ r ∈ [mkRow "AU" 2019 none none,
              mkRow "US" 2020 (some 1) (some 2)],
            (2019 : ℤ) ≤ r.year ∧ r.year ≤ 2020) := by
  have hrange : ∀ r ∈ [rawUS, rawAU], ∀ y, r.yearRaw = some y →
      (2019 : ℤ) ≤ y ∧ y ≤ 2020 := by
    intro r hr y hy
    rcases List.mem_cons.mp hr with rfl | hr
    · simp only [rawUS, Option.some.injEq] at hy
      omega
    rcases List.mem_cons.mp hr with rfl | hr
    · simp only [rawAU, Option.some.injEq] at hy
      omega
    · simp at hr
  have hkey : [rawUS, rawAU].Pairwise fun a b =>
      a.country ≠ b.country ∨ a.yearRaw ≠ b.yearRaw := by
    simp [List.pairwise_cons, rawUS, rawAU]
  have hok : fetch_data ["US", "AU"] 2019 2020 (.ok [rawUS, rawAU])
      = { table := [mkRow "AU" 2019 none none,
            mkRow "US" 2020 (some 1) (some 2)],
          errorReported := false } := rfl
  exact ⟨hrange, hkey,
    fetch_data_sorted_and_in_range ["US", "AU"] 2019 2020 _ _ (by decide)
      hrange hkey hok⟩

/-- C8: the country list never contains an entry derived from a response row
whose region is the sentinel Aggregates, every entry is a (name, iso2c)
projection of some response row, and the result is sorted ascending by
name. -/
theorem get_country_list_spec (countries : List CountryRef) :
    (∀ p ∈ get_country_list countries,
        ∃ c ∈ countries, c.region ≠ "Aggregates" ∧ p = (c.name, c.iso2c))
      ∧ (get_country_list countries).Pairwise fun p q => p.1 ≤ q.1 := by
  constructor
  · intro p hp
    have hmem : p ∈ (countries.filter fun c => c.region != "Aggregates").map
        (fun c => (c.name, c.iso2c)) := by
      have hperm := List.perm_insertionSort nameLe
        ((countries.filter fun c => c.region != "Aggregates").map
          (fun c => (c.name, c.iso2c)))
      exact hperm.mem_iff.mp hp
    obtain ⟨c, hc, rfl⟩ := List.mem_map.mp hmem
    obtain ⟨hcmem, hreg⟩ := List.mem_filter.mp hc
    exact ⟨c, hcmem, by simpa using hreg, rfl⟩
  · exact List.sorted_insertionSort nameLe _

end EconomyApp
